import Mathlib

/-!
Verification of the asynchronous encode pump in
src/examples/api1x_core/legacy-encode/src/legacy-encode.cpp.

The loop body (lines 182-257), the reset path (ResetForNewResolution,
lines 33-60) and the cleanup sequence (lines 259-295) are embedded as
pure Lean functions.  External collaborators (the accelerator session,
the frame source, file handles) are modelled by an oracle record giving
the status codes each external call returns during one loop iteration;
the pump's own state (the booleans, the frame counter, the encode
parameters, the surface-pool size) is threaded explicitly.  Each step
also emits a trace of events (external calls, writes, log lines) so
that ordering properties can be stated.
-/

namespace LegacyEncode

/-- Modelled from the spec: the status-code vocabulary of the accelerator
API (success, more-data, buffer-too-small, device-busy, device-lost,
still-executing).  The numeric values come from the public VPL headers,
which are not part of src/; only their distinctness matters to the
switch in the loop body. -/
def MFX_ERR_NONE : Int := 0

/-- Modelled from the spec: buffer-too-small status. -/
def MFX_ERR_NOT_ENOUGH_BUFFER : Int := -5

/-- Modelled from the spec: more-data-needed status. -/
def MFX_ERR_MORE_DATA : Int := -10

/-- Modelled from the spec: unrecoverable device-lost status. -/
def MFX_ERR_DEVICE_LOST : Int := -13

/-- Modelled from the spec: transient device-busy status. -/
def MFX_WRN_DEVICE_BUSY : Int := 2

/-- Modelled from the spec: still-executing status returned by the
synchronization wait while the asynchronous operation has not
completed. -/
def MFX_WRN_IN_EXECUTION : Int := 1

/-- Modelled from the spec: the bounded timeout slice (100 ms) passed to
every synchronization wait; the constant lives in the examples' shared
util header, which is not under src/. -/
def WAIT_100_MILLISECONDS : Nat := 100

/-- Modelled from the spec: ALIGN16 rounds a dimension up to the next
multiple of 16 (the macro lives in the examples' shared util header,
not under src/). -/
def ALIGN16 (value : Nat) : Nat := ((value + 15) / 16) * 16

/-- The encode-parameter fields the pump mutates: the crop rectangle and
the aligned frame geometry (encodeParams.mfx.FrameInfo in the source). -/
structure MfxVideoParam where
  CropW : Nat
  CropH : Nat
  Width : Nat
  Height : Nat
  deriving DecidableEq, Repr

/-- Trace events emitted by the embedded pump: external calls, output
writes, log lines and the ordered cleanup steps. -/
inductive Event where
  | readFrame
  | submit (status : Int)
  | syncCall (timeoutMs : Nat)
  | syncReturn (status : Int)
  | openSink
  | write (frameIndex : Nat)
  | log (msg : String)
  | openSource (path : String)
  | getVideoParam
  | encodeReset
  | queryIOSurf
  | allocPool (count : Nat)
  | closeEncode
  | closeSession
  | freeBitstream
  | freeSurfacePool
  | closeSource
  | closeSink
  | freeAccelHandle
  | unloadLoader
  deriving DecidableEq, Repr

/-- ResetForNewResolution (legacy-encode.cpp lines 33-60): updates the
crop and aligned geometry fields of encodeParams, then calls
MFXVideoENCODE_GetVideoParam and, if that succeeded, MFXVideoENCODE_Reset;
returns false if either call fails, true otherwise.  The two external
calls' statuses are inputs; the returned parameter record is the mutated
encodeParams (the field writes happen before either call, as in the
source). -/
def ResetForNewResolution (encodeParams : MfxVideoParam) (newWidth newHeight : Nat)
    (getParamStatus resetStatus : Int) : Bool × MfxVideoParam × List Event :=
  let p : MfxVideoParam :=
    { CropW := newWidth, CropH := newHeight,
      Width := ALIGN16 newWidth, Height := ALIGN16 newHeight }
  if getParamStatus ≠ MFX_ERR_NONE then
    (false, p, [Event.getVideoParam, Event.log "Get Parameter failed"])
  else if resetStatus ≠ MFX_ERR_NONE then
    (false, p, [Event.getVideoParam, Event.encodeReset, Event.log "Encode Reset failed"])
  else
    (true, p, [Event.getVideoParam, Event.encodeReset, Event.log "Reset Time"])

/-- A frame surface as the pool sees it: only the lock flag ("currently
owned by an in-flight accelerator operation") matters to the free-surface
scan. -/
structure Surface where
  locked : Bool
  deriving DecidableEq, Repr

/-- Modelled from the spec: GetFreeSurfaceIndex (the examples' shared
util header, not under src/) scans the pool for the first surface whose
lock flag is clear and returns its index, or NONE if every surface is
locked. -/
def GetFreeSurfaceIndex : List Surface → Option Nat
  | [] => none
  | s :: rest =>
    if s.locked = false then some 0
    else (GetFreeSurfaceIndex rest).map (fun i => i + 1)

/-- The pump's mutable state: the two loop booleans, the failure flag,
the frame counter, the number of ReadRawFrame calls issued to the frame
source, the encode parameters, the surface-pool size, the current input
path, and whether control has jumped to the cleanup label. -/
structure PumpState where
  isDraining : Bool
  isStillGoing : Bool
  isFailed : Bool
  framenum : Nat
  readCalls : Nat
  params : MfxVideoParam
  poolSize : Nat
  sourcePath : String
  jumpedToEnd : Bool
  deriving DecidableEq, Repr

/-- Responses of the external world during one loop iteration: the
ReadRawFrame status, the EncodeFrameAsync status, whether a sync point
was produced, the successive MFXVideoCORE_SyncOperation statuses, and
the outcomes of the calls made inside the frame-1 reconfiguration block
(reopening the source, GetVideoParam, Reset, QueryIOSurf, the new
suggested surface count, and the pool reallocation status). -/
structure IterOracle where
  readStatus : Int
  submitStatus : Int
  syncpValid : Bool
  syncStatuses : List Int
  sinkOpenOk : Bool
  sourceOpenOk : Bool
  resetGetParamStatus : Int
  resetStatus : Int
  queryIOSurfStatus : Int
  numFrameSuggested : Nat
  allocStatus : Int

/-- Modelled from the spec: the VERIFY macro of the examples' shared
util header (not under src/) prints a diagnostic and aborts to the
cleanup label recording the run as failed; per the spec, check failures
abort with a diagnostic, proceed to cleanup and exit non-zero. -/
def verifyFail (st : PumpState) (msg : String) : PumpState × List Event :=
  ({ st with isFailed := true, jumpedToEnd := true }, [Event.log msg])

/-- The body executed when MFXVideoCORE_SyncOperation returns success
(legacy-encode.cpp lines 207-227): open the sink file, write the
bitstream, increment framenum; when framenum reaches 1, reopen the
source at the hardcoded path, reset to 640x640, re-query the surface
requirement and reallocate the pool (the last assignment leaves the
allocation status in sts); when framenum reaches 3, goto end.  Returns
the new state, the events, and the value of sts after the block (the
do-while condition reads it).  The framenum == 3 test is placed on the
else-branch of the framenum == 1 test because the counter cannot be 1
and 3 at once. -/
def onSyncSuccess (st : PumpState) (o : IterOracle) : PumpState × List Event × Int :=
  if o.sinkOpenOk = false then
    let r := verifyFail st "Could not create output file"
    (r.1, Event.openSink :: r.2, MFX_ERR_NONE)
  else
    let st1 := { st with framenum := st.framenum + 1 }
    let ev1 := [Event.openSink, Event.write (st.framenum + 1)]
    if st1.framenum = 1 then
      let newPath := "/home/emonlu/code/dataset/640x640.yuv"
      if o.sourceOpenOk = false then
        let r := verifyFail st1 "Could not open input file"
        (r.1, ev1 ++ [Event.openSource newPath] ++ r.2, MFX_ERR_NONE)
      else
        let st2 := { st1 with sourcePath := newPath }
        let rr := ResetForNewResolution st2.params 640 640 o.resetGetParamStatus o.resetStatus
        let st3 := { st2 with params := rr.2.1 }
        if rr.1 = false then
          let r := verifyFail st3 "The reset procedure is failed."
          (r.1, ev1 ++ [Event.openSource newPath] ++ rr.2.2 ++ r.2, MFX_ERR_NONE)
        else if o.queryIOSurfStatus ≠ MFX_ERR_NONE then
          let r := verifyFail st3 "QueryIOSurf failed"
          (r.1, ev1 ++ [Event.openSource newPath] ++ rr.2.2 ++ [Event.queryIOSurf] ++ r.2,
            o.queryIOSurfStatus)
        else
          let st4 := { st3 with poolSize := o.numFrameSuggested }
          (st4, ev1 ++ [Event.openSource newPath] ++ rr.2.2 ++
              [Event.queryIOSurf, Event.allocPool o.numFrameSuggested],
            o.allocStatus)
    else if st1.framenum = 3 then
      ({ st1 with jumpedToEnd := true }, ev1, MFX_ERR_NONE)
    else
      (st1, ev1, MFX_ERR_NONE)

/-- The do-while synchronization loop (legacy-encode.cpp lines 204-231):
call MFXVideoCORE_SyncOperation with the 100 ms slice, run the success
body when it returns success, and repeat while sts is still-executing;
after the loop, VERIFY that the final sts is success.  The status list
is the finite sequence of wait results the external world produces; an
exhausted list leaves the state as is (the source would keep polling). -/
def syncAndWrite (st : PumpState) (o : IterOracle) : List Int → PumpState × List Event
  | [] => (st, [])
  | s :: rest =>
    let evHead := [Event.syncCall WAIT_100_MILLISECONDS, Event.syncReturn s]
    if s = MFX_ERR_NONE then
      let b := onSyncSuccess st o
      if b.1.jumpedToEnd then (b.1, evHead ++ b.2.1)
      else if b.2.2 = MFX_WRN_IN_EXECUTION then
        let r := syncAndWrite b.1 o rest
        (r.1, evHead ++ b.2.1 ++ r.2)
      else if b.2.2 = MFX_ERR_NONE then (b.1, evHead ++ b.2.1)
      else
        let r := verifyFail b.1 "MFXVideoCORE_SyncOperation error"
        (r.1, evHead ++ b.2.1 ++ r.2)
    else if s = MFX_WRN_IN_EXECUTION then
      let r := syncAndWrite st o rest
      (r.1, evHead ++ r.2)
    else
      let r := verifyFail st "MFXVideoCORE_SyncOperation error"
      (r.1, evHead ++ r.2)

/-- The switch on the EncodeFrameAsync status (legacy-encode.cpp lines
199-256): success runs the synchronization loop when a sync point was
produced; buffer-too-small, device-lost and device-busy fall through
with no action; more-data stops the loop only while draining; any other
status prints a diagnostic and stops the loop. -/
def handleStatus (st : PumpState) (o : IterOracle) : PumpState × List Event :=
  if o.submitStatus = MFX_ERR_NONE then
    if o.syncpValid then syncAndWrite st o o.syncStatuses
    else (st, [])
  else if o.submitStatus = MFX_ERR_NOT_ENOUGH_BUFFER then
    (st, [])
  else if o.submitStatus = MFX_ERR_MORE_DATA then
    if st.isDraining then ({ st with isStillGoing := false }, []) else (st, [])
  else if o.submitStatus = MFX_ERR_DEVICE_LOST then
    (st, [])
  else if o.submitStatus = MFX_WRN_DEVICE_BUSY then
    (st, [])
  else
    ({ st with isStillGoing := false }, [Event.log "unknown status"])

/-- One iteration of the encode loop (legacy-encode.cpp lines 182-257):
when not draining, scan for a free surface and call ReadRawFrame (a read
failure switches to draining); then submit to EncodeFrameAsync and
branch on its status. -/
def pumpIteration (st : PumpState) (o : IterOracle) : PumpState × List Event :=
  let a :=
    if st.isDraining = false then
      let stR := { st with readCalls := st.readCalls + 1 }
      if o.readStatus ≠ MFX_ERR_NONE then
        (({ stR with isDraining := true } : PumpState), [Event.readFrame])
      else (stR, [Event.readFrame])
    else (st, ([] : List Event))
  let b := handleStatus a.1 o
  (b.1, a.2 ++ [Event.submit o.submitStatus] ++ b.2)

/-- The encode loop (legacy-encode.cpp line 182): iterate while
isStillGoing holds and control has not jumped to the cleanup label; each
iteration consumes one oracle record. -/
def pumpRun (st : PumpState) : List IterOracle → PumpState × List Event
  | [] => (st, [])
  | o :: os =>
    if st.isStillGoing = true ∧ st.jumpedToEnd = false then
      let a := pumpIteration st o
      let r := pumpRun a.1 os
      (r.1, a.2 ++ r.2)
    else (st, [])

/-- The cleanup sequence after the end label (legacy-encode.cpp lines
259-295), in source order, with every resource live as it is at loop
exit: report the frame count, close the encoder and the session, free
the bitstream, free the surface pool, close the files, free the
accelerator handle, unload the loader. -/
def cleanupEvents : List Event :=
  [Event.log "Encoded frames", Event.closeEncode, Event.closeSession,
   Event.freeBitstream, Event.freeSurfacePool, Event.closeSource,
   Event.closeSink, Event.freeAccelHandle, Event.unloadLoader]

/-- The process exit code (legacy-encode.cpp lines 290-295): -1 when the
failure flag is set, 0 otherwise. -/
def exitCode (st : PumpState) : Int := if st.isFailed then -1 else 0

/-- The pump state at loop entry (legacy-encode.cpp lines 78-82 and the
setup up to line 176): not draining, still going, not failed, frame
counter zero, the negotiated parameters and the suggested surface
count. -/
def initialPumpState (infileName : String) (params : MfxVideoParam)
    (numFrameSuggested : Nat) : PumpState :=
  { isDraining := false, isStillGoing := true, isFailed := false,
    framenum := 0, readCalls := 0, params := params,
    poolSize := numFrameSuggested, sourcePath := infileName,
    jumpedToEnd := false }

/-- Number of bitstream writes in a trace. -/
def countWrites : List Event → Nat
  | [] => 0
  | e :: l => countWrites l + (match e with | Event.write _ => 1 | _ => 0)

/-- Number of synchronization waits that returned success in a trace. -/
def countSyncSuccess : List Event → Nat
  | [] => 0
  | e :: l =>
    countSyncSuccess l +
      (match e with
        | Event.syncReturn s => if s = MFX_ERR_NONE then 1 else 0
        | _ => 0)

/-- Number of log lines in a trace. -/
def countLogs : List Event → Nat
  | [] => 0
  | e :: l => countLogs l + (match e with | Event.log _ => 1 | _ => 0)

/-- Number of synchronization-wait calls in a trace. -/
def countSyncCalls : List Event → Nat
  | [] => 0
  | e :: l => countSyncCalls l + (match e with | Event.syncCall _ => 1 | _ => 0)

/-- Number of synchronization-wait calls whose timeout slice is not the
100 ms constant. -/
def countBadSyncCalls : List Event → Nat
  | [] => 0
  | e :: l =>
    countBadSyncCalls l +
      (match e with
        | Event.syncCall t => if t = WAIT_100_MILLISECONDS then 0 else 1
        | _ => 0)

/-- Every prefix of the trace holds at least as many synchronization
successes as bitstream writes: no output is consumed before its wait
reports completion. -/
def writesCovered (l : List Event) : Prop :=
  ∀ n : Nat, countWrites (l.take n) ≤ countSyncSuccess (l.take n)

/-! Counting helpers for traces. -/

theorem countWrites_append (a b : List Event) :
    countWrites (a ++ b) = countWrites a + countWrites b := by
  induction a with
  | nil => simp [countWrites]
  | cons e l ih => simp [countWrites, ih]; omega

theorem countSyncSuccess_append (a b : List Event) :
    countSyncSuccess (a ++ b) = countSyncSuccess a + countSyncSuccess b := by
  induction a with
  | nil => simp [countSyncSuccess]
  | cons e l ih => simp [countSyncSuccess, ih]; omega

theorem countLogs_append (a b : List Event) :
    countLogs (a ++ b) = countLogs a + countLogs b := by
  induction a with
  | nil => simp [countLogs]
  | cons e l ih => simp [countLogs, ih]; omega

theorem countSyncCalls_append (a b : List Event) :
    countSyncCalls (a ++ b) = countSyncCalls a + countSyncCalls b := by
  induction a with
  | nil => simp [countSyncCalls]
  | cons e l ih => simp [countSyncCalls, ih]; omega

theorem countBadSyncCalls_append (a b : List Event) :
    countBadSyncCalls (a ++ b) = countBadSyncCalls a + countBadSyncCalls b := by
  induction a with
  | nil => simp [countBadSyncCalls]
  | cons e l ih => simp [countBadSyncCalls, ih]; omega

theorem countBadSyncCalls_le (l : List Event) :
    countBadSyncCalls l ≤ countSyncCalls l := by
  induction l with
  | nil => simp [countSyncCalls, countBadSyncCalls]
  | cons e l ih =>
    cases e <;> simp [countSyncCalls, countBadSyncCalls] <;>
      first
      | (split <;> omega)
      | omega

theorem countBadSyncCalls_of_noCalls {l : List Event}
    (h : countSyncCalls l = 0) : countBadSyncCalls l = 0 := by
  have hle := countBadSyncCalls_le l
  omega

/-- In a trace with no off-slice wait call, every wait call uses the
100 ms slice. -/
theorem syncCall_timeout_of_noBad {l : List Event}
    (h : countBadSyncCalls l = 0) :
    ∀ t, Event.syncCall t ∈ l → t = WAIT_100_MILLISECONDS := by
  induction l with
  | nil => intro t ht; simp at ht
  | cons e l ih =>
    intro t ht
    simp only [countBadSyncCalls] at h
    rcases List.mem_cons.mp ht with he | hm
    · subst he
      simp only at h
      by_cases hw : t = WAIT_100_MILLISECONDS
      · exact hw
      · simp [hw] at h
    · exact ih (by omega) t hm

theorem countWrites_take_le (l : List Event) (n : Nat) :
    countWrites (l.take n) ≤ countWrites l := by
  induction l generalizing n with
  | nil => simp [countWrites]
  | cons e t ih =>
    cases n with
    | zero => simp [countWrites]
    | succ m => simp [countWrites]; exact ih m

theorem countSyncSuccess_take_le (l : List Event) (n : Nat) :
    countSyncSuccess (l.take n) ≤ countSyncSuccess l := by
  induction l generalizing n with
  | nil => simp [countSyncSuccess]
  | cons e t ih =>
    cases n with
    | zero => simp [countSyncSuccess]
    | succ m => simp [countSyncSuccess]; exact ih m

theorem writesCovered_append {a b : List Event} (ha : writesCovered a)
    (hb : writesCovered b) : writesCovered (a ++ b) := by
  intro n
  rw [List.take_append_eq_append_take, countWrites_append, countSyncSuccess_append]
  exact Nat.add_le_add (ha n) (hb (n - a.length))

theorem writesCovered_of_no_writes {l : List Event} (h : countWrites l = 0) :
    writesCovered l := by
  intro n
  have hle := countWrites_take_le l n
  omega

/-- Prepending an event that is not a write keeps a trace covered. -/
theorem writesCovered_cons {l : List Event} (h : writesCovered l) (e : Event)
    (he : countWrites [e] = 0) : writesCovered (e :: l) := by
  intro n
  match n with
  | 0 => simp [countWrites, countSyncSuccess]
  | Nat.succ k =>
    have h1 := h k
    simp only [List.take_succ_cons]
    simp [countWrites, countSyncSuccess] at he h1 ⊢
    omega

theorem writesCovered_sync_chunk {ev rest : List Event} (h : countWrites ev ≤ 1)
    (hrest : writesCovered rest) (t : Nat) :
    writesCovered (Event.syncCall t :: Event.syncReturn MFX_ERR_NONE :: (ev ++ rest)) := by
  intro n
  match n with
  | 0 => simp [countWrites, countSyncSuccess]
  | 1 => simp [countWrites, countSyncSuccess]
  | Nat.succ (Nat.succ k) =>
    have hW : countWrites (ev.take k) ≤ 1 := le_trans (countWrites_take_le ev k) h
    have hR := hrest (k - ev.length)
    simp only [List.take_succ_cons, List.take_append_eq_append_take]
    simp [countWrites, countSyncSuccess, countWrites_append,
      countSyncSuccess_append] at hW hR ⊢
    omega

/-- The reset path performs no writes, no synchronization waits, and no
sync calls: its trace is the two engine calls and a log line. -/
theorem reset_trace_facts (p : MfxVideoParam) (w h : Nat) (gs rs : Int) :
    countWrites (ResetForNewResolution p w h gs rs).2.2 = 0 ∧
    countSyncSuccess (ResetForNewResolution p w h gs rs).2.2 = 0 ∧
    countSyncCalls (ResetForNewResolution p w h gs rs).2.2 = 0 := by
  simp only [ResetForNewResolution]
  split
  · simp [countWrites, countSyncSuccess, countSyncCalls]
  · split <;> simp [countWrites, countSyncSuccess, countSyncCalls]

/-- Structural facts about one execution of the sync-success body: the
frame counter grows by exactly the number of writes emitted, at most one
write is emitted (exactly one when the sink opens), no wait events are
emitted, and the read/draining/still-going fields are untouched; the
status left in sts is either success or the pool-reallocation status
unless control jumped to the cleanup label. -/
theorem onSyncSuccess_spec (st : PumpState) (o : IterOracle) (st' : PumpState)
    (ev : List Event) (sts : Int) (h : onSyncSuccess st o = (st', ev, sts)) :
    st'.framenum = st.framenum + countWrites ev ∧
    countWrites ev ≤ 1 ∧
    countSyncSuccess ev = 0 ∧
    st'.readCalls = st.readCalls ∧
    st'.isDraining = st.isDraining ∧
    st'.isStillGoing = st.isStillGoing ∧
    countSyncCalls ev = 0 ∧
    (o.sinkOpenOk = true → countWrites ev = 1) ∧
    (st'.jumpedToEnd = true ∨ sts = MFX_ERR_NONE ∨ sts = o.allocStatus) := by
  have hr := reset_trace_facts st.params 640 640 o.resetGetParamStatus o.resetStatus
  simp only [onSyncSuccess, verifyFail] at h
  split at h
  · rename_i hsink
    simp only [Prod.mk.injEq] at h
    obtain ⟨h1, h2, h3⟩ := h
    subst h1; subst h2; subst h3
    simp [countWrites, countSyncSuccess, countSyncCalls, hsink]
  · rename_i hsink
    split at h
    · split at h
      · simp only [Prod.mk.injEq] at h
        obtain ⟨h1, h2, h3⟩ := h
        subst h1; subst h2; subst h3
        simp [countWrites, countSyncSuccess, countSyncCalls, countWrites_append, countSyncSuccess_append, countSyncCalls_append]
      · split at h
        · simp only [Prod.mk.injEq] at h
          obtain ⟨h1, h2, h3⟩ := h
          subst h1; subst h2; subst h3
          refine ⟨?_, ?_, ?_, ?_, ?_, ?_, ?_, ?_, ?_⟩ <;>
            simp [countWrites_append, countSyncSuccess_append, countSyncCalls_append,
              countWrites, countSyncSuccess, countSyncCalls, hr.1, hr.2.1, hr.2.2]
        · split at h
          · simp only [Prod.mk.injEq] at h
            obtain ⟨h1, h2, h3⟩ := h
            subst h1; subst h2; subst h3
            refine ⟨?_, ?_, ?_, ?_, ?_, ?_, ?_, ?_, ?_⟩ <;>
              simp [countWrites_append, countSyncSuccess_append, countSyncCalls_append,
                countWrites, countSyncSuccess, countSyncCalls, hr.1, hr.2.1, hr.2.2]
          · simp only [Prod.mk.injEq] at h
            obtain ⟨h1, h2, h3⟩ := h
            subst h1; subst h2; subst h3
            refine ⟨?_, ?_, ?_, ?_, ?_, ?_, ?_, ?_, ?_⟩ <;>
              simp [countWrites_append, countSyncSuccess_append, countSyncCalls_append,
                countWrites, countSyncSuccess, countSyncCalls, hr.1, hr.2.1, hr.2.2]
    · split at h
      · simp only [Prod.mk.injEq] at h
        obtain ⟨h1, h2, h3⟩ := h
        subst h1; subst h2; subst h3
        simp [countWrites, countSyncSuccess, countSyncCalls]
      · simp only [Prod.mk.injEq] at h
        obtain ⟨h1, h2, h3⟩ := h
        subst h1; subst h2; subst h3
        simp [countWrites, countSyncSuccess, countSyncCalls]

/-- Structural facts about the synchronization do-while loop: the frame
counter grows by exactly the number of writes in its trace, every prefix
of the trace has at least as many wait successes as writes, the
read/draining/still-going fields are untouched, every wait uses the
100 ms slice, when the sink always opens each write is matched
one-to-one with a wait success, and when the pool-reallocation status is
not still-executing at most one wait success occurs (one output per
submission). -/
theorem syncAndWrite_spec (o : IterOracle) :
    ∀ (l : List Int) (st st' : PumpState) (ev : List Event),
      syncAndWrite st o l = (st', ev) →
      st'.framenum = st.framenum + countWrites ev ∧
      writesCovered ev ∧
      st'.readCalls = st.readCalls ∧
      st'.isDraining = st.isDraining ∧
      st'.isStillGoing = st.isStillGoing ∧
      countBadSyncCalls ev = 0 ∧
      (o.sinkOpenOk = true → countWrites ev = countSyncSuccess ev) ∧
      (o.allocStatus ≠ MFX_WRN_IN_EXECUTION → countSyncSuccess ev ≤ 1) := by
  intro l
  induction l with
  | nil =>
    intro st st' ev h
    simp only [syncAndWrite, Prod.mk.injEq] at h
    obtain ⟨h1, h2⟩ := h
    subst h1; subst h2
    refine ⟨by simp [countWrites], writesCovered_of_no_writes (by simp [countWrites]),
      rfl, rfl, rfl, by simp [countBadSyncCalls],
      by simp [countWrites, countSyncSuccess], by simp [countSyncSuccess]⟩
  | cons s rest ih =>
    intro st st' ev h
    simp only [syncAndWrite] at h
    split at h
    · rename_i hs
      subst hs
      rcases hB : onSyncSuccess st o with ⟨bst, bev, bsts⟩
      rw [hB] at h
      obtain ⟨sp1, sp2, sp3, sp4, sp5, sp6, sp7, sp8, sp9⟩ :=
        onSyncSuccess_spec st o bst bev bsts hB
      have hbad : countBadSyncCalls bev = 0 := countBadSyncCalls_of_noCalls sp7
      split at h
      · rename_i hj
        simp only [Prod.mk.injEq] at h
        obtain ⟨h1, h2⟩ := h
        subst h1; subst h2
        refine ⟨?_, ?_, sp4, sp5, sp6, ?_, ?_, ?_⟩
        · simp [countWrites]; omega
        · have hc := @writesCovered_sync_chunk bev [] sp2 (writesCovered_of_no_writes
            (by simp [countWrites])) WAIT_100_MILLISECONDS
          simpa using hc
        · simp [countBadSyncCalls, hbad]
        · intro hsink
          have e1 := sp8 hsink
          simp [countWrites, countSyncSuccess]
          omega
        · intro _
          simp [countSyncSuccess]
          omega
      · rename_i hj
        replace hj : ¬ bst.jumpedToEnd = true := hj
        split at h
        · rename_i hexec
          replace hexec : bsts = MFX_WRN_IN_EXECUTION := hexec
          rcases hR : syncAndWrite bst o rest with ⟨rst, rev⟩
          rw [hR] at h
          obtain ⟨ih1, ih2, ih3, ih4, ih5, ih6, ih7, ih8⟩ := ih bst rst rev hR
          simp only [Prod.mk.injEq] at h
          obtain ⟨h1, h2⟩ := h
          subst h1; subst h2
          refine ⟨?_, ?_, ?_, ?_, ?_, ?_, ?_, ?_⟩
          · simp [countWrites, countWrites_append]; omega
          · have hc := writesCovered_sync_chunk sp2 ih2 WAIT_100_MILLISECONDS
            simpa using hc
          · rw [ih3, sp4]
          · rw [ih4, sp5]
          · rw [ih5, sp6]
          · simp [countBadSyncCalls, countBadSyncCalls_append, hbad, ih6]
          · intro hsink
            have e1 := sp8 hsink
            have e2 := ih7 hsink
            simp [countWrites, countSyncSuccess, countWrites_append,
              countSyncSuccess_append]
            omega
          · intro halloc
            exfalso
            rcases sp9 with hc | hc | hc
            · exact hj hc
            · rw [hc] at hexec
              exact absurd hexec (by simp [MFX_ERR_NONE, MFX_WRN_IN_EXECUTION])
            · rw [hexec] at hc
              exact halloc hc.symm
        · rename_i hexec
          split at h
          · simp only [Prod.mk.injEq] at h
            obtain ⟨h1, h2⟩ := h
            subst h1; subst h2
            refine ⟨?_, ?_, sp4, sp5, sp6, ?_, ?_, ?_⟩
            · simp [countWrites]; omega
            · have hc := @writesCovered_sync_chunk bev [] sp2 (writesCovered_of_no_writes
                (by simp [countWrites])) WAIT_100_MILLISECONDS
              simpa using hc
            · simp [countBadSyncCalls, hbad]
            · intro hsink
              have e1 := sp8 hsink
              simp [countWrites, countSyncSuccess]
              omega
            · intro _
              simp [countSyncSuccess]
              omega
          · simp only [verifyFail, Prod.mk.injEq] at h
            obtain ⟨h1, h2⟩ := h
            subst h1; subst h2
            refine ⟨?_, ?_, sp4, sp5, sp6, ?_, ?_, ?_⟩
            · simp [countWrites, countWrites_append]; omega
            · have hc := @writesCovered_sync_chunk bev
                [Event.log "MFXVideoCORE_SyncOperation error"] sp2
                (writesCovered_of_no_writes (by simp [countWrites]))
                WAIT_100_MILLISECONDS
              simpa using hc
            · simp [countBadSyncCalls, countBadSyncCalls_append, hbad]
            · intro hsink
              have e1 := sp8 hsink
              simp [countWrites, countSyncSuccess, countWrites_append,
                countSyncSuccess_append]
              omega
            · intro _
              simp [countSyncSuccess, countSyncSuccess_append]
              omega
    · rename_i hs
      split at h
      · rename_i hexec
        subst hexec
        rcases hR : syncAndWrite st o rest with ⟨rst, rev⟩
        rw [hR] at h
        obtain ⟨ih1, ih2, ih3, ih4, ih5, ih6, ih7, ih8⟩ := ih st rst rev hR
        simp only [Prod.mk.injEq] at h
        obtain ⟨h1, h2⟩ := h
        subst h1; subst h2
        refine ⟨?_, ?_, ih3, ih4, ih5, ?_, ?_, ?_⟩
        · simp [countWrites]; omega
        · exact writesCovered_cons (writesCovered_cons ih2 _
            (by simp [countWrites])) _ (by simp [countWrites])
        · simp [countBadSyncCalls, ih6]
        · intro hsink
          have e2 := ih7 hsink
          simp [countWrites, countSyncSuccess, MFX_WRN_IN_EXECUTION, MFX_ERR_NONE]
          omega
        · intro halloc
          have e3 := ih8 halloc
          simp [countSyncSuccess, MFX_WRN_IN_EXECUTION, MFX_ERR_NONE]
          omega
      · simp only [verifyFail, Prod.mk.injEq] at h
        obtain ⟨h1, h2⟩ := h
        subst h1; subst h2
        refine ⟨?_, ?_, rfl, rfl, rfl, ?_, ?_, ?_⟩
        · simp [countWrites]
        · exact writesCovered_of_no_writes (by simp [countWrites])
        · simp [countBadSyncCalls]
        · intro _
          simp [countWrites, countSyncSuccess, hs]
        · intro _
          simp [countSyncSuccess, hs]

/-- A switch branch that emits no writes, no waits and no off-slice
calls, and leaves the frame counter, read counter and draining flag
unchanged, satisfies the per-branch contract. -/
theorem handleStatus_plain_branch (o : IterOracle) {st st' a : PumpState}
    {ev l : List Event} (h : (a, l) = (st', ev))
    (hf : a.framenum = st.framenum)
    (hr : a.readCalls = st.readCalls) (hd : a.isDraining = st.isDraining)
    (hw : countWrites l = 0) (hb : countBadSyncCalls l = 0)
    (hs : countSyncSuccess l = 0) :
    st'.framenum = st.framenum + countWrites ev ∧
    writesCovered ev ∧
    st'.readCalls = st.readCalls ∧
    st'.isDraining = st.isDraining ∧
    countBadSyncCalls ev = 0 ∧
    (o.sinkOpenOk = true → countWrites ev = countSyncSuccess ev) ∧
    (o.allocStatus ≠ MFX_WRN_IN_EXECUTION → countSyncSuccess ev ≤ 1) := by
  simp only [Prod.mk.injEq] at h
  obtain ⟨h1, h2⟩ := h
  subst h1; subst h2
  exact ⟨by omega, writesCovered_of_no_writes hw, hr, hd, hb,
    fun _ => by omega, fun _ => by omega⟩

/-- Facts about the status switch: the frame counter grows by the
number of writes, traces stay covered, the read counter and draining
flag are untouched, waits use the 100 ms slice, writes match wait
successes when the sink opens, and at most one wait success occurs per
submission when the reallocation status is not still-executing. -/
theorem handleStatus_spec (st : PumpState) (o : IterOracle) (st' : PumpState)
    (ev : List Event) (h : handleStatus st o = (st', ev)) :
    st'.framenum = st.framenum + countWrites ev ∧
    writesCovered ev ∧
    st'.readCalls = st.readCalls ∧
    st'.isDraining = st.isDraining ∧
    countBadSyncCalls ev = 0 ∧
    (o.sinkOpenOk = true → countWrites ev = countSyncSuccess ev) ∧
    (o.allocStatus ≠ MFX_WRN_IN_EXECUTION → countSyncSuccess ev ≤ 1) := by
  simp only [handleStatus] at h
  split at h
  · split at h
    · obtain ⟨s1, s2, s3, s4, s5, s6, s7, s8⟩ := syncAndWrite_spec o o.syncStatuses st st' ev h
      exact ⟨s1, s2, s3, s4, s6, s7, s8⟩
    · exact handleStatus_plain_branch o h rfl rfl rfl (by simp [countWrites])
        (by simp [countBadSyncCalls]) (by simp [countSyncSuccess])
  · split at h
    · exact handleStatus_plain_branch o h rfl rfl rfl (by simp [countWrites])
        (by simp [countBadSyncCalls]) (by simp [countSyncSuccess])
    · split at h
      · split at h
        · exact handleStatus_plain_branch o h rfl rfl rfl (by simp [countWrites])
            (by simp [countBadSyncCalls]) (by simp [countSyncSuccess])
        · exact handleStatus_plain_branch o h rfl rfl rfl (by simp [countWrites])
            (by simp [countBadSyncCalls]) (by simp [countSyncSuccess])
      · split at h
        · exact handleStatus_plain_branch o h rfl rfl rfl (by simp [countWrites])
            (by simp [countBadSyncCalls]) (by simp [countSyncSuccess])
        · split at h
          · exact handleStatus_plain_branch o h rfl rfl rfl (by simp [countWrites])
              (by simp [countBadSyncCalls]) (by simp [countSyncSuccess])
          · exact handleStatus_plain_branch o h rfl rfl rfl (by simp [countWrites])
              (by simp [countBadSyncCalls]) (by simp [countSyncSuccess])

/-- The read phase of an iteration adds one ReadRawFrame call while
feeding and none while draining; the rest of the iteration never touches
the read counter. -/
theorem pumpIteration_readCalls (st : PumpState) (o : IterOracle) :
    (pumpIteration st o).1.readCalls =
      st.readCalls + (if st.isDraining then 0 else 1) := by
  rcases hH1 : pumpIteration st o with ⟨st', ev⟩
  simp only [pumpIteration] at hH1
  split at hH1
  · rename_i hdr
    split at hH1
    · rcases hB : handleStatus { st with readCalls := st.readCalls + 1, isDraining := true } o
        with ⟨bst, bev⟩
      rw [hB] at hH1
      have hs := (handleStatus_spec _ o bst bev hB).2.2.1
      simp only [Prod.mk.injEq] at hH1
      obtain ⟨h1, h2⟩ := hH1
      subst h1
      simp [hs, hdr]
    · rcases hB : handleStatus { st with readCalls := st.readCalls + 1 } o
        with ⟨bst, bev⟩
      rw [hB] at hH1
      have hs := (handleStatus_spec _ o bst bev hB).2.2.1
      simp only [Prod.mk.injEq] at hH1
      obtain ⟨h1, h2⟩ := hH1
      subst h1
      simp [hs, hdr]
  · rename_i hdr
    rcases hB : handleStatus st o with ⟨bst, bev⟩
    rw [hB] at hH1
    have hs := (handleStatus_spec _ o bst bev hB).2.2.1
    simp only [Prod.mk.injEq] at hH1
    obtain ⟨h1, h2⟩ := hH1
    subst h1
    simp only [Bool.not_eq_false] at hdr
    simp [hs, hdr]

/-- Facts about one full loop iteration: frame counter accounting,
coverage, wait-slice discipline, and the write/wait-success match. -/
theorem pumpIteration_spec (st : PumpState) (o : IterOracle) (st' : PumpState)
    (ev : List Event) (h : pumpIteration st o = (st', ev)) :
    st'.framenum = st.framenum + countWrites ev ∧
    writesCovered ev ∧
    countBadSyncCalls ev = 0 ∧
    (o.sinkOpenOk = true → countWrites ev = countSyncSuccess ev) ∧
    (o.allocStatus ≠ MFX_WRN_IN_EXECUTION → countSyncSuccess ev ≤ 1) := by
  simp only [pumpIteration] at h
  split at h
  · split at h
    · rcases hB : handleStatus { st with readCalls := st.readCalls + 1, isDraining := true } o
        with ⟨bst, bev⟩
      rw [hB] at h
      obtain ⟨s1, s2, s3, s4, s5, s6, s7⟩ := handleStatus_spec _ o bst bev hB
      simp only [Prod.mk.injEq] at h
      obtain ⟨h1, h2⟩ := h
      subst h1; subst h2
      refine ⟨?_, ?_, ?_, ?_, ?_⟩
      · simp only [countWrites_append] at *
        simp [countWrites] at *
        omega
      · exact writesCovered_append (writesCovered_append
          (writesCovered_of_no_writes (by simp [countWrites]))
          (writesCovered_of_no_writes (by simp [countWrites]))) s2
      · simp [countBadSyncCalls_append, countBadSyncCalls, s5]
      · intro hsink
        have e := s6 hsink
        simp [countWrites_append, countSyncSuccess_append, countWrites, countSyncSuccess]
        omega
      · intro halloc
        have e := s7 halloc
        simp [countSyncSuccess_append, countSyncSuccess]
        omega
    · rcases hB : handleStatus { st with readCalls := st.readCalls + 1 } o
        with ⟨bst, bev⟩
      rw [hB] at h
      obtain ⟨s1, s2, s3, s4, s5, s6, s7⟩ := handleStatus_spec _ o bst bev hB
      simp only [Prod.mk.injEq] at h
      obtain ⟨h1, h2⟩ := h
      subst h1; subst h2
      refine ⟨?_, ?_, ?_, ?_, ?_⟩
      · simp only [countWrites_append] at *
        simp [countWrites] at *
        omega
      · exact writesCovered_append (writesCovered_append
          (writesCovered_of_no_writes (by simp [countWrites]))
          (writesCovered_of_no_writes (by simp [countWrites]))) s2
      · simp [countBadSyncCalls_append, countBadSyncCalls, s5]
      · intro hsink
        have e := s6 hsink
        simp [countWrites_append, countSyncSuccess_append, countWrites, countSyncSuccess]
        omega
      · intro halloc
        have e := s7 halloc
        simp [countSyncSuccess_append, countSyncSuccess]
        omega
  · rcases hB : handleStatus st o with ⟨bst, bev⟩
    rw [hB] at h
    obtain ⟨s1, s2, s3, s4, s5, s6, s7⟩ := handleStatus_spec _ o bst bev hB
    simp only [Prod.mk.injEq] at h
    obtain ⟨h1, h2⟩ := h
    subst h1; subst h2
    refine ⟨?_, ?_, ?_, ?_, ?_⟩
    · simp only [countWrites_append] at *
      simp [countWrites] at *
      omega
    · exact writesCovered_append
        (writesCovered_of_no_writes (by simp [countWrites])) s2
    · simp [countBadSyncCalls_append, countBadSyncCalls, s5]
    · intro hsink
      have e := s6 hsink
      simp [countWrites_append, countSyncSuccess_append, countWrites, countSyncSuccess]
      omega
    · intro halloc
      have e := s7 halloc
      simp [countSyncSuccess_append, countSyncSuccess]
      omega

/-- A stopped pump (loop flag cleared or control at the cleanup label)
runs no further iterations. -/
theorem pumpRun_stopped {st : PumpState} (l : List IterOracle)
    (h : ¬(st.isStillGoing = true ∧ st.jumpedToEnd = false)) :
    pumpRun st l = (st, []) := by
  cases l with
  | nil => rfl
  | cons o os => simp [pumpRun, h]

/-- Running the loop on concatenated oracle lists runs the first part
and then continues from the state it reached. -/
theorem pumpRun_append (st : PumpState) (a b : List IterOracle) :
    pumpRun st (a ++ b) =
      ((pumpRun (pumpRun st a).1 b).1, (pumpRun st a).2 ++ (pumpRun (pumpRun st a).1 b).2) := by
  induction a generalizing st with
  | nil => simp [pumpRun]
  | cons o os ih =>
    by_cases hc : st.isStillGoing = true ∧ st.jumpedToEnd = false
    · simp only [List.cons_append, pumpRun, if_pos hc, List.append_eq]
      rw [ih]
      simp [List.append_assoc]
    · simp [pumpRun_stopped _ hc]

/-- Whole-run accounting: the frame counter grows by exactly the number
of writes in the run trace, prefixes of the trace are covered, waits use
the 100 ms slice, and when the sink always opens writes match wait
successes one-to-one. -/
theorem pumpRun_spec :
    ∀ (os : List IterOracle) (st st' : PumpState) (ev : List Event),
      pumpRun st os = (st', ev) →
      st'.framenum = st.framenum + countWrites ev ∧
      writesCovered ev ∧
      countBadSyncCalls ev = 0 ∧
      ((∀ o ∈ os, o.sinkOpenOk = true) → countWrites ev = countSyncSuccess ev) := by
  intro os
  induction os with
  | nil =>
    intro st st' ev h
    simp only [pumpRun, Prod.mk.injEq] at h
    obtain ⟨h1, h2⟩ := h
    subst h1; subst h2
    exact ⟨by simp [countWrites], writesCovered_of_no_writes (by simp [countWrites]),
      by simp [countBadSyncCalls], by simp [countWrites, countSyncSuccess]⟩
  | cons o os ih =>
    intro st st' ev h
    simp only [pumpRun] at h
    split at h
    · rcases hI : pumpIteration st o with ⟨ist, iev⟩
      rw [hI] at h
      rcases hR : pumpRun ist os with ⟨rst, rev⟩
      rw [hR] at h
      obtain ⟨p1, p2, p3, p4, p5⟩ := pumpIteration_spec st o ist iev hI
      obtain ⟨q1, q2, q3, q4⟩ := ih ist rst rev hR
      simp only [Prod.mk.injEq] at h
      obtain ⟨h1, h2⟩ := h
      subst h1; subst h2
      refine ⟨?_, writesCovered_append p2 q2, ?_, ?_⟩
      · simp [countWrites_append]; omega
      · simp [countBadSyncCalls_append, p3, q3]
      · intro hsink
        have e1 := p4 (hsink o (by simp))
        have e2 := q4 (fun x hx => hsink x (by simp [hx]))
        simp [countWrites_append, countSyncSuccess_append]
        omega
    · simp only [Prod.mk.injEq] at h
      obtain ⟨h1, h2⟩ := h
      subst h1; subst h2
      exact ⟨by simp [countWrites], writesCovered_of_no_writes (by simp [countWrites]),
        by simp [countBadSyncCalls], by simp [countWrites, countSyncSuccess]⟩

/-! Concrete fixtures used by witnesses and counterexamples: a 320x240
session (ALIGN16 leaves both dimensions unchanged) and an oracle in
which every external call succeeds. -/

def baseParams : MfxVideoParam :=
  { CropW := 320, CropH := 240, Width := 320, Height := 240 }

def st0 : PumpState := initialPumpState "in.NV12" baseParams 4

def oBase : IterOracle :=
  { readStatus := MFX_ERR_NONE, submitStatus := MFX_ERR_NONE, syncpValid := true,
    syncStatuses := [MFX_ERR_NONE], sinkOpenOk := true, sourceOpenOk := true,
    resetGetParamStatus := MFX_ERR_NONE, resetStatus := MFX_ERR_NONE,
    queryIOSurfStatus := MFX_ERR_NONE, numFrameSuggested := 6,
    allocStatus := MFX_ERR_NONE }

def oDeviceLost : IterOracle := { oBase with submitStatus := MFX_ERR_DEVICE_LOST }

def oBusy : IterOracle := { oBase with submitStatus := MFX_WRN_DEVICE_BUSY }

def oNotEnoughBuffer : IterOracle :=
  { oBase with submitStatus := MFX_ERR_NOT_ENOUGH_BUFFER }

def oMoreData : IterOracle := { oBase with submitStatus := MFX_ERR_MORE_DATA }

/-- An oracle whose submit status (-12, MFX_ERR_ABORTED in the headers)
matches none of the five cases of the status switch. -/
def oUnknown : IterOracle := { oBase with submitStatus := -12 }

def stDraining : PumpState := { st0 with isDraining := true }

/-- C1 counterexample: the claim says a device-lost submit status makes
the pump transition to the terminal Failed state and terminate the
encode loop.  On the code, the MFX_ERR_DEVICE_LOST case of the switch
is an empty stub: after such an iteration the loop flag is still set,
no failure is recorded, and a second iteration runs normally, so the
loop does not terminate. -/
theorem C1_counterexample :
    (pumpIteration st0 oDeviceLost).1.isStillGoing = true ∧
    (pumpIteration st0 oDeviceLost).1.isFailed = false ∧
    (pumpRun st0 [oDeviceLost, oDeviceLost]).1.isStillGoing = true := by
  decide

/-- C1 (amended): a device-lost submit status causes no pump-state
change at all -- the switch case is an empty stub, the loop flag and
failure flag are untouched and the loop continues to the next
iteration. -/
theorem C1_device_lost_no_action (st : PumpState) (o : IterOracle)
    (h : o.submitStatus = MFX_ERR_DEVICE_LOST) :
    handleStatus st o = (st, []) := by
  simp [handleStatus, h, MFX_ERR_NONE, MFX_ERR_NOT_ENOUGH_BUFFER,
    MFX_ERR_MORE_DATA, MFX_ERR_DEVICE_LOST, MFX_WRN_DEVICE_BUSY]

/-- C1 witness: the amended theorem applied to the concrete fixture. -/
theorem C1_witness : handleStatus st0 oDeviceLost = (st0, []) :=
  C1_device_lost_no_action st0 oDeviceLost (by rfl)

/-- C2 counterexample: the claim says an unrecognized submit status is
recorded as an error outcome (the Failed state).  On the code, the
default branch clears the loop flag but never sets isFailed, so after
the run the process exit code is 0, not an error. -/
theorem C2_counterexample :
    (pumpRun st0 [oUnknown]).1.isStillGoing = false ∧
    (pumpRun st0 [oUnknown]).1.isFailed = false ∧
    exitCode (pumpRun st0 [oUnknown]).1 = 0 := by
  decide

/-- C2 (amended): an unrecognized submit status stops the loop (the
iteration prints the unknown-status diagnostic and clears isStillGoing)
and cleanup still executes in the required order -- encoder close before
surface-pool release, accelerator-handle release after both -- but no
error outcome is recorded: isFailed is left unchanged, so a run that
fails only this way exits with code 0. -/
theorem C2_unknown_status_stops_loop (st : PumpState) (o : IterOracle)
    (h1 : o.submitStatus ≠ MFX_ERR_NONE)
    (h2 : o.submitStatus ≠ MFX_ERR_NOT_ENOUGH_BUFFER)
    (h3 : o.submitStatus ≠ MFX_ERR_MORE_DATA)
    (h4 : o.submitStatus ≠ MFX_ERR_DEVICE_LOST)
    (h5 : o.submitStatus ≠ MFX_WRN_DEVICE_BUSY) :
    handleStatus st o = ({ st with isStillGoing := false }, [Event.log "unknown status"]) ∧
    (handleStatus st o).1.isFailed = st.isFailed ∧
    cleanupEvents.indexOf Event.closeEncode < cleanupEvents.indexOf Event.freeSurfacePool ∧
    cleanupEvents.indexOf Event.freeSurfacePool < cleanupEvents.indexOf Event.freeAccelHandle := by
  have he : handleStatus st o =
      ({ st with isStillGoing := false }, [Event.log "unknown status"]) := by
    simp [handleStatus, h1, h2, h3, h4, h5]
  refine ⟨he, by rw [he], by decide, by decide⟩

/-- C2 witness: the amended theorem applied to the concrete fixture. -/
theorem C2_witness :
    handleStatus st0 oUnknown =
      ({ st0 with isStillGoing := false }, [Event.log "unknown status"]) :=
  (C2_unknown_status_stops_loop st0 oUnknown (by decide) (by decide) (by decide)
    (by decide) (by decide)).1

/-- C3 counterexample: the claim says that after a device-busy submit
the next iteration retries the same surface/frame context and no new
frame is consumed from the source.  On the code, the loop top
unconditionally scans for a free surface and calls ReadRawFrame again
whenever it is not draining, so the retry iteration consumes a second
frame (the read-call counter goes from 1 to 2); there is also no delay
call in the device-busy case. -/
theorem C3_counterexample :
    (pumpIteration st0 oBusy).1.readCalls = 1 ∧
    (pumpIteration st0 oBusy).1.isDraining = false ∧
    (pumpIteration (pumpIteration st0 oBusy).1 oBusy).1.readCalls = 2 := by
  decide

/-- C3 (amended): a device-busy submit status causes no pump-state
change in the switch (the case is an empty stub, with no delay call),
but the retry context differs by phase: while draining the next
iteration resubmits the same null context with no read, while feeding
the next iteration reads a new frame from the source (one ReadRawFrame
call per feeding iteration), so the busy frame is dropped rather than
resubmitted. -/
theorem C3_device_busy_retry (st : PumpState) (o : IterOracle)
    (h : o.submitStatus = MFX_WRN_DEVICE_BUSY) :
    handleStatus st o = (st, []) ∧
    (∀ (st2 : PumpState) (o2 : IterOracle), st2.isDraining = false →
      (pumpIteration st2 o2).1.readCalls = st2.readCalls + 1) ∧
    (∀ (st2 : PumpState) (o2 : IterOracle), st2.isDraining = true →
      (pumpIteration st2 o2).1.readCalls = st2.readCalls) := by
  refine ⟨?_, ?_, ?_⟩
  · simp [handleStatus, h, MFX_ERR_NONE, MFX_ERR_NOT_ENOUGH_BUFFER,
      MFX_ERR_MORE_DATA, MFX_ERR_DEVICE_LOST, MFX_WRN_DEVICE_BUSY]
  · intro st2 o2 hd
    rw [pumpIteration_readCalls]
    simp [hd]
  · intro st2 o2 hd
    rw [pumpIteration_readCalls]
    simp [hd]

/-- C3 witness: the amended theorem applied to the concrete fixture. -/
theorem C3_witness : handleStatus st0 oBusy = (st0, []) :=
  (C3_device_busy_retry st0 oBusy (by rfl)).1

/-- C4: a more-data submit status while the draining flag is set clears
the loop flag (the Done transition) without recording any error -- the
failure flag is untouched and, if nothing failed earlier, the process
exits 0; the same status while feeding leaves the pump state completely
unchanged and the loop continues. -/
theorem C4_more_data (st : PumpState) (o : IterOracle)
    (h : o.submitStatus = MFX_ERR_MORE_DATA) :
    (st.isDraining = true →
      handleStatus st o = ({ st with isStillGoing := false }, []) ∧
      (handleStatus st o).1.isFailed = st.isFailed ∧
      (st.isFailed = false → exitCode (handleStatus st o).1 = 0)) ∧
    (st.isDraining = false → handleStatus st o = (st, [])) := by
  constructor
  · intro hd
    have he : handleStatus st o = ({ st with isStillGoing := false }, []) := by
      simp [handleStatus, h, hd, MFX_ERR_NONE, MFX_ERR_NOT_ENOUGH_BUFFER,
        MFX_ERR_MORE_DATA, MFX_ERR_DEVICE_LOST, MFX_WRN_DEVICE_BUSY]
    refine ⟨he, by rw [he], ?_⟩
    intro hf
    rw [he]
    simp [exitCode, hf]
  · intro hd
    simp [handleStatus, h, hd, MFX_ERR_NONE, MFX_ERR_NOT_ENOUGH_BUFFER,
      MFX_ERR_MORE_DATA, MFX_ERR_DEVICE_LOST, MFX_WRN_DEVICE_BUSY]

/-- C4 witness: the theorem applied to a concrete draining state -- the
loop stops, nothing is recorded as failed. -/
theorem C4_witness :
    handleStatus stDraining oMoreData = ({ stDraining with isStillGoing := false }, []) :=
  ((C4_more_data stDraining oMoreData (by rfl)).1 (by rfl)).1

/-- C9 counterexample: the claim says the buffer-too-small case logs a
diagnostic.  On the code, the MFX_ERR_NOT_ENOUGH_BUFFER case holds only
comments and a break: the iteration emits no log event at all (the
pump state is indeed unchanged). -/
theorem C9_counterexample :
    handleStatus st0 oNotEnoughBuffer = (st0, []) ∧
    countLogs (pumpIteration st0 oNotEnoughBuffer).2 = 0 := by
  decide

/-- C9 (amended): a buffer-too-small submit status is silently ignored:
the switch case changes no pump state, enters no terminal state (the
loop flag, failure flag and jump flag are exactly as before), and emits
no diagnostic -- the policy note exists only as a source comment. -/
theorem C9_not_enough_buffer_silent (st : PumpState) (o : IterOracle)
    (h : o.submitStatus = MFX_ERR_NOT_ENOUGH_BUFFER) :
    handleStatus st o = (st, []) ∧
    countLogs (pumpIteration st o).2 = 0 ∧
    (pumpIteration st o).1.isStillGoing = st.isStillGoing ∧
    (pumpIteration st o).1.isFailed = st.isFailed ∧
    (pumpIteration st o).1.jumpedToEnd = st.jumpedToEnd := by
  have he : ∀ st2 : PumpState, handleStatus st2 o = (st2, []) := by
    intro st2
    simp [handleStatus, h, MFX_ERR_NONE, MFX_ERR_NOT_ENOUGH_BUFFER,
      MFX_ERR_MORE_DATA, MFX_ERR_DEVICE_LOST, MFX_WRN_DEVICE_BUSY]
  refine ⟨he st, ?_, ?_, ?_, ?_⟩ <;>
    (simp only [pumpIteration]
     split
     · split <;> simp [he, countLogs, countLogs_append]
     · simp [he, countLogs, countLogs_append])

/-- C9 witness: the amended theorem applied to the concrete fixture. -/
theorem C9_witness : handleStatus st0 oNotEnoughBuffer = (st0, []) :=
  (C9_not_enough_buffer_silent st0 oNotEnoughBuffer (by rfl)).1

/-- The frame counter never decreases over a run. -/
theorem pumpRun_framenum_le (st : PumpState) (os : List IterOracle) :
    st.framenum ≤ (pumpRun st os).1.framenum := by
  rcases hR : pumpRun st os with ⟨rst, rtr⟩
  have h1 := (pumpRun_spec os st rst rtr hR).1
  simp only [hR]
  omega

/-- C5: the bitstream is never delivered before its wait succeeds -- in
every prefix of any run trace the number of writes is bounded by the
number of wait successes -- every wait call in the trace uses the 100 ms
slice, and a still-executing wait result re-invokes the wait with the
same token (the loop equation for the still-executing head). -/
theorem C5_output_after_sync (st : PumpState) (os : List IterOracle)
    (st' : PumpState) (tr : List Event) (h : pumpRun st os = (st', tr)) :
    (∀ n, countWrites (tr.take n) ≤ countSyncSuccess (tr.take n)) ∧
    (∀ t, Event.syncCall t ∈ tr → t = WAIT_100_MILLISECONDS) ∧
    (∀ (st2 : PumpState) (o : IterOracle) (rest : List Int),
      syncAndWrite st2 o (MFX_WRN_IN_EXECUTION :: rest) =
        ((syncAndWrite st2 o rest).1,
          Event.syncCall WAIT_100_MILLISECONDS :: Event.syncReturn MFX_WRN_IN_EXECUTION ::
            (syncAndWrite st2 o rest).2)) := by
  obtain ⟨p1, p2, p3, p4⟩ := pumpRun_spec os st st' tr h
  refine ⟨p2, syncCall_timeout_of_noBad p3, ?_⟩
  intro st2 o rest
  simp [syncAndWrite, MFX_WRN_IN_EXECUTION, MFX_ERR_NONE, WAIT_100_MILLISECONDS]

/-- C5 witness: the theorem applied to a concrete one-frame run. -/
theorem C5_witness :
    countWrites ((pumpRun st0 [oBase]).2.take 6) ≤
      countSyncSuccess ((pumpRun st0 [oBase]).2.take 6) :=
  (C5_output_after_sync st0 [oBase] (pumpRun st0 [oBase]).1
    (pumpRun st0 [oBase]).2 rfl).1 6

/-- C6: when every sink open succeeds, the final frame counter equals
its initial value plus the number of wait successes in the run trace
(each of which is an output-producing, successfully synchronized
submission), writes and wait successes match one-to-one, the counter
never decreases across any prefix of the run, and a single submission
contributes at most one wait success when the pool-reallocation status
is not still-executing. -/
theorem C6_frame_counter (st : PumpState) (os : List IterOracle)
    (st' : PumpState) (tr : List Event) (h : pumpRun st os = (st', tr))
    (hsink : ∀ o ∈ os, o.sinkOpenOk = true) :
    st'.framenum = st.framenum + countSyncSuccess tr ∧
    countWrites tr = countSyncSuccess tr ∧
    (∀ pre suf, os = pre ++ suf → (pumpRun st pre).1.framenum ≤ st'.framenum) ∧
    (∀ (st2 : PumpState) (o2 : IterOracle) (st2' : PumpState) (ev2 : List Event),
      o2.allocStatus ≠ MFX_WRN_IN_EXECUTION → handleStatus st2 o2 = (st2', ev2) →
      countSyncSuccess ev2 ≤ 1) := by
  obtain ⟨p1, p2, p3, p4⟩ := pumpRun_spec os st st' tr h
  have hws := p4 hsink
  refine ⟨by omega, hws, ?_, ?_⟩
  · intro pre suf hsplit
    subst hsplit
    rw [pumpRun_append] at h
    have h1 : st' = (pumpRun (pumpRun st pre).1 suf).1 := by
      have h2 := congrArg Prod.fst h
      simpa using h2.symm
    rw [h1]
    exact pumpRun_framenum_le (pumpRun st pre).1 suf
  · intro st2 o2 st2' ev2 halloc hh
    exact (handleStatus_spec st2 o2 st2' ev2 hh).2.2.2.2.2.2 halloc

/-- C6 witness: a concrete two-frame run whose counter ends at 2. -/
theorem C6_witness : (pumpRun st0 [oBase, oBase]).1.framenum = 2 := by
  have h := (C6_frame_counter st0 [oBase, oBase] (pumpRun st0 [oBase, oBase]).1
    (pumpRun st0 [oBase, oBase]).2 rfl (by decide)).1
  rw [h]
  decide

/-- C7: the reset path retrieves the current parameters before applying
the new ones (the GetVideoParam event precedes the Reset event, and on
retrieval failure the Reset call never happens), returns false when
either engine call fails, applies CropW, CropH and the 16-aligned
geometry on success, reports CropW = 640 and CropH = 640 after a
successful 640x640 reset, and a reset failure inside the frame-1 block
is fatal for the pump: the failure flag is set and control jumps to
cleanup. -/
theorem C7_reset (p : MfxVideoParam) (w h : Nat) (gs rs : Int) :
    (gs = MFX_ERR_NONE ∧ rs = MFX_ERR_NONE →
      ResetForNewResolution p w h gs rs =
        (true, { CropW := w, CropH := h, Width := ALIGN16 w, Height := ALIGN16 h },
         [Event.getVideoParam, Event.encodeReset, Event.log "Reset Time"])) ∧
    (gs ≠ MFX_ERR_NONE →
      ResetForNewResolution p w h gs rs =
        (false, { CropW := w, CropH := h, Width := ALIGN16 w, Height := ALIGN16 h },
         [Event.getVideoParam, Event.log "Get Parameter failed"])) ∧
    (gs = MFX_ERR_NONE → rs ≠ MFX_ERR_NONE →
      ResetForNewResolution p w h gs rs =
        (false, { CropW := w, CropH := h, Width := ALIGN16 w, Height := ALIGN16 h },
         [Event.getVideoParam, Event.encodeReset, Event.log "Encode Reset failed"])) ∧
    ((ResetForNewResolution p 640 640 MFX_ERR_NONE MFX_ERR_NONE).2.1.CropW = 640 ∧
     (ResetForNewResolution p 640 640 MFX_ERR_NONE MFX_ERR_NONE).2.1.CropH = 640) ∧
    (∀ (st : PumpState) (o : IterOracle), st.framenum = 0 →
      o.sinkOpenOk = true → o.sourceOpenOk = true →
      (o.resetGetParamStatus ≠ MFX_ERR_NONE ∨ o.resetStatus ≠ MFX_ERR_NONE) →
      (onSyncSuccess st o).1.isFailed = true ∧
      (onSyncSuccess st o).1.jumpedToEnd = true) := by
  refine ⟨?_, ?_, ?_, ?_, ?_⟩
  · rintro ⟨hg, hr⟩
    simp [ResetForNewResolution, hg, hr]
  · intro hg
    simp [ResetForNewResolution, hg]
  · intro hg hr
    simp [ResetForNewResolution, hg, hr]
  · constructor <;> simp [ResetForNewResolution]
  · intro st o hf hsink hsource hbad
    rcases hbad with hg | hr
    · simp [onSyncSuccess, verifyFail, ResetForNewResolution, hsink, hsource, hf, hg]
    · by_cases hg2 : o.resetGetParamStatus = MFX_ERR_NONE
      · simp [onSyncSuccess, verifyFail, ResetForNewResolution, hsink, hsource, hf, hg2, hr]
      · simp [onSyncSuccess, verifyFail, ResetForNewResolution, hsink, hsource, hf, hg2]

/-- C7 witness: a successful 640x640 reset on the concrete parameters. -/
theorem C7_witness :
    ResetForNewResolution baseParams 640 640 MFX_ERR_NONE MFX_ERR_NONE =
      (true, { CropW := 640, CropH := 640, Width := 640, Height := 640 },
       [Event.getVideoParam, Event.encodeReset, Event.log "Reset Time"]) :=
  (C7_reset baseParams 640 640 MFX_ERR_NONE MFX_ERR_NONE).1 ⟨rfl, rfl⟩

/-- C8: under a successful oracle, one sync-success body execution
increments the frame counter by one; the reconfiguration block runs
exactly when the counter reaches 1 (entering value 0): it switches the
source to the hardcoded path, applies the 640x640 geometry, rebuilds
the pool to the newly suggested count, and emits the re-query,
reallocation and source-open events; for any other counter value the
source, parameters and pool are untouched and no re-query happens; and
the run jumps to the cleanup label exactly when the counter reaches 3,
without recording a failure. -/
theorem C8_reconfig_trigger (st : PumpState) (o : IterOracle)
    (hsink : o.sinkOpenOk = true) (hsource : o.sourceOpenOk = true)
    (hg : o.resetGetParamStatus = MFX_ERR_NONE) (hr : o.resetStatus = MFX_ERR_NONE)
    (hq : o.queryIOSurfStatus = MFX_ERR_NONE) (hj : st.jumpedToEnd = false) :
    (onSyncSuccess st o).1.framenum = st.framenum + 1 ∧
    (st.framenum = 0 →
      (onSyncSuccess st o).1.sourcePath = "/home/emonlu/code/dataset/640x640.yuv" ∧
      (onSyncSuccess st o).1.params =
        { CropW := 640, CropH := 640, Width := 640, Height := 640 } ∧
      (onSyncSuccess st o).1.poolSize = o.numFrameSuggested ∧
      Event.queryIOSurf ∈ (onSyncSuccess st o).2.1 ∧
      Event.allocPool o.numFrameSuggested ∈ (onSyncSuccess st o).2.1 ∧
      Event.openSource "/home/emonlu/code/dataset/640x640.yuv" ∈ (onSyncSuccess st o).2.1) ∧
    (st.framenum ≠ 0 →
      (onSyncSuccess st o).1.sourcePath = st.sourcePath ∧
      (onSyncSuccess st o).1.params = st.params ∧
      (onSyncSuccess st o).1.poolSize = st.poolSize ∧
      Event.queryIOSurf ∉ (onSyncSuccess st o).2.1) ∧
    ((onSyncSuccess st o).1.jumpedToEnd = true ↔ st.framenum + 1 = 3) ∧
    (onSyncSuccess st o).1.isFailed = st.isFailed := by
  by_cases hf0 : st.framenum = 0
  · have hne3 : ¬(st.framenum + 1 = 3) := by omega
    refine ⟨?_, ?_, ?_, ?_, ?_⟩ <;>
      simp [onSyncSuccess, verifyFail, ResetForNewResolution, ALIGN16,
        hsink, hsource, hg, hr, hq, hf0, hj, hne3]
  · by_cases hf2 : st.framenum = 2
    · have hne1 : ¬(st.framenum + 1 = 1) := by omega
      refine ⟨?_, ?_, ?_, ?_, ?_⟩ <;>
        simp [onSyncSuccess, verifyFail, hsink, hne1, hf0, hf2]
    · have hne1 : ¬(st.framenum + 1 = 1) := by omega
      have hne3 : ¬(st.framenum + 1 = 3) := by omega
      refine ⟨?_, ?_, ?_, ?_, ?_⟩ <;>
        simp [onSyncSuccess, verifyFail, hsink, hne1, hne3, hf0, hj]

/-- C8 witness: starting from the concrete initial state, the first
synchronized frame triggers the 640x640 reconfiguration. -/
theorem C8_witness :
    (onSyncSuccess st0 oBase).1.params =
      { CropW := 640, CropH := 640, Width := 640, Height := 640 } :=
  ((C8_reconfig_trigger st0 oBase rfl rfl rfl rfl rfl rfl).2.1 rfl).2.1

/-- C10: the free-surface scan returns an in-bounds index exactly when
some surface in the pool is unlocked, and returns NONE when every
surface is locked -- so the pump's unconditional use of the scan result
as a pool index is in bounds precisely under the at-least-one-free
precondition, and a fully locked pool yields no valid index for the
unchecked dereference. -/
theorem C10_free_surface_index (pool : List Surface) :
    ((∃ s ∈ pool, s.locked = false) ↔
      ∃ i, GetFreeSurfaceIndex pool = some i ∧ i < pool.length) ∧
    ((∀ s ∈ pool, s.locked = true) → GetFreeSurfaceIndex pool = none) := by
  induction pool with
  | nil => simp [GetFreeSurfaceIndex]
  | cons s rest ih =>
    constructor
    · by_cases hl : s.locked = false
      · constructor
        · intro _
          exact ⟨0, by simp [GetFreeSurfaceIndex, hl], by simp⟩
        · intro _
          exact ⟨s, by simp, hl⟩
      · have hl2 : s.locked = true := by simpa using hl
        constructor
        · rintro ⟨x, hx, hxl⟩
          rcases List.mem_cons.mp hx with hxe | hxr
          · rw [hxe] at hxl
            rw [hl2] at hxl
            cases hxl
          · obtain ⟨i, hi, hlen⟩ := ih.1.mp ⟨x, hxr, hxl⟩
            refine ⟨i + 1, ?_, ?_⟩
            · simp [GetFreeSurfaceIndex, hl2, hi]
            · simpa using Nat.succ_lt_succ hlen
        · rintro ⟨i, hi, hlen⟩
          simp only [GetFreeSurfaceIndex, hl2] at hi
          simp only [Bool.true_eq_false, if_false, Option.map_eq_some'] at hi
          obtain ⟨j, hj, hji⟩ := hi
          have hjl : j < rest.length := by
            simp only [List.length_cons] at hlen
            omega
          obtain ⟨x, hxr, hxl⟩ := ih.1.mpr ⟨j, hj, hjl⟩
          exact ⟨x, List.mem_cons_of_mem _ hxr, hxl⟩
    · intro hall
      by_cases hl : s.locked = false
      · have := hall s (by simp)
        rw [hl] at this
        cases this
      · have hl2 : s.locked = true := by simpa using hl
        simp [GetFreeSurfaceIndex, hl2,
          ih.2 (fun x hx => hall x (List.mem_cons_of_mem _ hx))]

/-- C10 witness: a fully locked single-surface pool yields no index. -/
theorem C10_witness :
    GetFreeSurfaceIndex [({ locked := true } : Surface)] = none :=
  (C10_free_surface_index [{ locked := true }]).2
    (by intro s hs; simp at hs; subst hs; rfl)

end LegacyEncode
